import Mathlib

/-!
Verification of the Deployment Parameter Deriver of
`sagemaker/29_deploy_llms_on_inferentia2/sagemaker-notebook.ipynb`.

The notebook builds an endpoint environment dictionary (`config`, notebook
lines 202–213):

  batch_size = 4
  sequence_length = 2048
  config = {
    'HF_MODEL_ID': "aws-neuron/zephyr-7b-seqlen-2048-bs-4-cores-2",
    'MAX_CONCURRENT_REQUESTS': json.dumps(batch_size),
    'MAX_INPUT_LENGTH': json.dumps(1512),
    'MAX_TOTAL_TOKENS': json.dumps(sequence_length),
    'MAX_BATCH_PREFILL_TOKENS': json.dumps(int(sequence_length*batch_size / 2)),
    'MAX_BATCH_TOTAL_TOKENS': json.dumps(sequence_length*batch_size),
  }

We embed this cell parameterized by the model id, `batch_size` and
`sequence_length` (the notebook instantiates them to the constants above).
Python's `/` on integers is IEEE binary64 true division; `int(...)`
truncates toward zero; `json.dumps` of a nonnegative `int` is its decimal
string.  Both are modelled exactly below (for operands below `2 ^ 1024`,
above which Python's float division overflows; every statement in this file
evaluates the float model only below that bound).
-/

/-- Floor of the base-2 logarithm, computed with explicit structural fuel so
that the kernel can evaluate it on literals.  `log2Aux fuel n` is correct
whenever `n < 2 ^ fuel`. -/
def log2Aux : Nat → Nat → Nat
  | 0, _ => 0
  | fuel + 1, n => if 2 ≤ n then log2Aux fuel (n / 2) + 1 else 0

/-- Floor of the base-2 logarithm for every `n < 2 ^ 1100`, which covers the
whole range on which binary64 arithmetic is defined. -/
def log2F (n : Nat) : Nat := log2Aux 1100 n

/-- Round-to-nearest, ties-to-even, of a natural number to a 53-bit binary
significand: the value of Python's `float(n)` (IEEE binary64) for
`n < 2 ^ 1024`.  Every `n ≤ 2 ^ 53` is exactly representable; above that the
representable values are the multiples of `2 ^ (log2 n - 52)` and `n` is
rounded to the nearest one, ties going to the even quotient. -/
def rnd53 (n : Nat) : Nat :=
  if n ≤ 2 ^ 53 then n
  else
    let p := 2 ^ (log2F n - 52)
    let q := n / p
    let r := n % p
    if 2 * r < p then q * p
    else if p < 2 * r then (q + 1) * p
    else if q % 2 = 0 then q * p else (q + 1) * p

/-- Model of Python's `int(n / 2)` for a nonnegative int `n`: true division
produces the binary64 nearest to `n / 2`, which equals `rnd53 n / 2` exactly
(scaling by 2 commutes with rounding), and `int` truncates the resulting
half-integer toward zero, i.e. takes its floor. -/
def pyIntHalf (n : Nat) : Nat := rnd53 n / 2

/-- Model of Python's `json.dumps` on a nonnegative int: its decimal
string. -/
def jsonDumpsNat (n : Nat) : String := Nat.repr n

/-- The Serving Configuration record (spec §3): the numeric content of the
notebook's `config` dictionary. -/
structure ServingConfig where
  hfModelId : String
  maxConcurrentRequests : Nat
  maxInputLength : Nat
  maxTotalTokens : Nat
  maxBatchTotalTokens : Nat
  maxBatchPrefillTokens : Nat
deriving DecidableEq

/-- The model id hardcoded in the notebook. -/
def notebookModelId : String := "aws-neuron/zephyr-7b-seqlen-2048-bs-4-cores-2"

/-- The notebook's derivation (lines 202–213), parameterized by the model id
and the two compile-time constants.  Field formulas are transcribed from the
`config` dict: `MAX_CONCURRENT_REQUESTS = batch_size`,
`MAX_INPUT_LENGTH = 1512` (a fixed literal), `MAX_TOTAL_TOKENS =
sequence_length`, `MAX_BATCH_PREFILL_TOKENS = int(sequence_length *
batch_size / 2)` (float division), `MAX_BATCH_TOTAL_TOKENS =
sequence_length * batch_size`.  The cell performs no validation and cannot
fail. -/
def derive (modelId : String) (batch_size sequence_length : Nat) : ServingConfig :=
  { hfModelId := modelId
    maxConcurrentRequests := batch_size
    maxInputLength := 1512
    maxTotalTokens := sequence_length
    maxBatchTotalTokens := sequence_length * batch_size
    maxBatchPrefillTokens := pyIntHalf (sequence_length * batch_size) }

/-- The `config` dictionary itself, as the association list handed to the
provisioning boundary: each value is `json.dumps` of the corresponding int,
except the model id which is passed through unchanged. -/
def configEnv (modelId : String) (batch_size sequence_length : Nat) :
    List (String × String) :=
  [ ("HF_MODEL_ID", modelId),
    ("MAX_CONCURRENT_REQUESTS", jsonDumpsNat batch_size),
    ("MAX_INPUT_LENGTH", jsonDumpsNat 1512),
    ("MAX_TOTAL_TOKENS", jsonDumpsNat sequence_length),
    ("MAX_BATCH_PREFILL_TOKENS", jsonDumpsNat (pyIntHalf (sequence_length * batch_size))),
    ("MAX_BATCH_TOTAL_TOKENS", jsonDumpsNat (sequence_length * batch_size)) ]

/-- Serialization of a Serving Configuration record for the provisioning
boundary, following the spec's words (§6): six fixed keys, every value the
decimal string of the corresponding derived integer except `HF_MODEL_ID`,
which is the identifier unchanged. -/
def toEnv (c : ServingConfig) : List (String × String) :=
  [ ("HF_MODEL_ID", c.hfModelId),
    ("MAX_CONCURRENT_REQUESTS", jsonDumpsNat c.maxConcurrentRequests),
    ("MAX_INPUT_LENGTH", jsonDumpsNat c.maxInputLength),
    ("MAX_TOTAL_TOKENS", jsonDumpsNat c.maxTotalTokens),
    ("MAX_BATCH_PREFILL_TOKENS", jsonDumpsNat c.maxBatchPrefillTokens),
    ("MAX_BATCH_TOTAL_TOKENS", jsonDumpsNat c.maxBatchTotalTokens) ]

/-- The derived numeric fields of a record, in declaration order, without the
model identifier. -/
def numericFields (c : ServingConfig) : Nat × Nat × Nat × Nat × Nat :=
  (c.maxConcurrentRequests, c.maxInputLength, c.maxTotalTokens,
   c.maxBatchTotalTokens, c.maxBatchPrefillTokens)

/-- A second model identifier, used to observe that the derived numeric
fields do not depend on the identifier. -/
def otherModelId : String := "some-other-model-id"

/-- The spec's only error kind (§7). -/
inductive DeriveError where
  | invalidConfiguration
deriving DecidableEq

/-- Follows the spec's words (§4.1), not the source, for comparison with
`derive`: a validating Deployment Parameter Deriver that fails with
`InvalidConfiguration` when `batch_size = 0`, `sequence_length = 0` or
`max_input_length > sequence_length`, and otherwise returns the record with
the derived fields computed with integer floor division. -/
def deriveSpec (modelId : String)
    (batch_size sequence_length max_input_length : Nat) :
    Except DeriveError ServingConfig :=
  if batch_size = 0 ∨ sequence_length = 0 ∨ sequence_length < max_input_length then
    Except.error DeriveError.invalidConfiguration
  else
    Except.ok
      { hfModelId := modelId
        maxConcurrentRequests := batch_size
        maxInputLength := max_input_length
        maxTotalTokens := sequence_length
        maxBatchTotalTokens := batch_size * sequence_length
        maxBatchPrefillTokens := batch_size * sequence_length / 2 }

/-- On the exactly representable range, `float(n)` is `n` itself. -/
theorem rnd53_eq_of_le {n : Nat} (h : n ≤ 2 ^ 53) : rnd53 n = n := by
  unfold rnd53
  rw [if_pos h]

/-- On the exactly representable range, `int(n / 2)` is floor division by
two. -/
theorem pyIntHalf_eq_of_le {n : Nat} (h : n ≤ 2 ^ 53) : pyIntHalf n = n / 2 := by
  unfold pyIntHalf
  rw [rnd53_eq_of_le h]

/-- Claim C1 (amended): for all positive `b` and `s` the derived
configuration satisfies `max_concurrent_requests = b`,
`max_total_tokens = s` and `max_batch_total_tokens = b * s`
unconditionally, and `max_batch_prefill_tokens = ⌊b * s / 2⌋` whenever
`b * s ≤ 2 ^ 53` (the range on which Python's float division of the product
is exact); the prefill field is computed with floating-point, not integer,
division, so only that equality needs the bound (see
`derive_prefill_not_floor`). -/
theorem derive_fields_correct (mid : String) (b s : Nat)
    (hb : 0 < b) (hs : 0 < s) :
    (derive mid b s).maxConcurrentRequests = b ∧
    (derive mid b s).maxTotalTokens = s ∧
    (derive mid b s).maxBatchTotalTokens = b * s ∧
    (b * s ≤ 2 ^ 53 → (derive mid b s).maxBatchPrefillTokens = b * s / 2) := by
  refine ⟨rfl, rfl, Nat.mul_comm s b, fun hsmall => ?_⟩
  show pyIntHalf (s * b) = b * s / 2
  rw [pyIntHalf_eq_of_le (by rwa [Nat.mul_comm] at hsmall), Nat.mul_comm s b]

/-- Witness for `derive_fields_correct` at the notebook's own constants
`b = 4`, `s = 2048`. -/
theorem derive_fields_correct_witness :
    (derive notebookModelId 4 2048).maxConcurrentRequests = 4 ∧
    (derive notebookModelId 4 2048).maxTotalTokens = 2048 ∧
    (derive notebookModelId 4 2048).maxBatchTotalTokens = 4 * 2048 ∧
    (derive notebookModelId 4 2048).maxBatchPrefillTokens = 4 * 2048 / 2 := by
  have h := derive_fields_correct notebookModelId 4 2048 (by decide) (by decide)
  exact ⟨h.1, h.2.1, h.2.2.1, h.2.2.2 (by decide)⟩

/-- Counterexample to claim C1 as stated: at `b = 1`,
`s = 9007199254740995 = 2 ^ 53 + 3` the code's prefill value
(`int(s * b / 2)` computed through binary64 division, which rounds the
product to `2 ^ 53 + 4`) is `2 ^ 52 + 2`, not `⌊b * s / 2⌋ = 2 ^ 52 + 1`. -/
theorem derive_prefill_not_floor :
    (derive notebookModelId 1 9007199254740995).maxBatchPrefillTokens ≠
      1 * 9007199254740995 / 2 := by decide

/-- Counterexample to claim C2 as stated: at `batch_size = 0` the spec's
validating Deriver fails with `InvalidConfiguration`, but the notebook's code
performs no validation and returns a fully constructed record instead of
failing. -/
theorem derive_never_fails_cex :
    deriveSpec notebookModelId 0 2048 1512 =
      Except.error DeriveError.invalidConfiguration ∧
    derive notebookModelId 0 2048 =
      { hfModelId := notebookModelId, maxConcurrentRequests := 0,
        maxInputLength := 1512, maxTotalTokens := 2048,
        maxBatchTotalTokens := 0, maxBatchPrefillTokens := 0 } :=
  ⟨rfl, rfl⟩

/-- Claim C2 (amended): the code contains no validation and no failure mode
at all — on every input the spec would reject (`batch_size = 0`,
`sequence_length = 0`, or `sequence_length < 1512`, i.e. smaller than the
hardcoded `MAX_INPUT_LENGTH`), the derivation still unconditionally
constructs the record with the same field formulas; `InvalidConfiguration`
is never raised because it does not exist in the code. -/
theorem derive_total_on_invalid (mid : String) (b s : Nat)
    (h : b = 0 ∨ s = 0 ∨ s < 1512) :
    (derive mid b s).maxConcurrentRequests = b ∧
    (derive mid b s).maxTotalTokens = s ∧
    (derive mid b s).maxInputLength = 1512 ∧
    (derive mid b s).maxBatchTotalTokens = s * b :=
  ⟨rfl, rfl, rfl, rfl⟩

/-- Witness for `derive_total_on_invalid` at the invalid input
`batch_size = 0`. -/
theorem derive_total_on_invalid_witness :
    (derive notebookModelId 0 2048).maxConcurrentRequests = 0 ∧
    (derive notebookModelId 0 2048).maxTotalTokens = 2048 ∧
    (derive notebookModelId 0 2048).maxInputLength = 1512 ∧
    (derive notebookModelId 0 2048).maxBatchTotalTokens = 2048 * 0 :=
  derive_total_on_invalid notebookModelId 0 2048 (Or.inl rfl)

/-- Counterexample to claim C3 as stated: with `sequence_length = 1024` the
construction succeeds (nothing fails) and the produced configuration has
`max_input_length = 1512 > 1024 = sequence_length`. -/
theorem maxInput_invariant_cex :
    (derive notebookModelId 4 1024).maxInputLength = 1512 ∧
    ¬ (derive notebookModelId 4 1024).maxInputLength ≤ 1024 := by decide

/-- Claim C3 (amended): construction never fails; every produced
configuration has `max_input_length = 1512` (a hardcoded literal), so the
invariant `max_input_length ≤ sequence_length` holds exactly when
`sequence_length ≥ 1512` — in particular it holds at the notebook's own
`sequence_length = 2048`, but is violated for any smaller compilation. -/
theorem maxInput_le_seqLen_iff (mid : String) (b s : Nat) :
    (derive mid b s).maxInputLength = 1512 ∧
    ((derive mid b s).maxInputLength ≤ s ↔ 1512 ≤ s) :=
  ⟨rfl, Iff.rfl⟩

/-- Witness for `maxInput_le_seqLen_iff` at the notebook's constants. -/
theorem maxInput_le_seqLen_iff_witness :
    (derive notebookModelId 4 2048).maxInputLength = 1512 ∧
    ((derive notebookModelId 4 2048).maxInputLength ≤ 2048 ↔ 1512 ≤ 2048) :=
  maxInput_le_seqLen_iff notebookModelId 4 2048

/-- Claim C4: the two concrete scenarios.  At `batch_size = 4`,
`sequence_length = 2048` the derivation returns
`max_concurrent_requests = 4`, `max_total_tokens = 2048`,
`max_batch_prefill_tokens = 4096`, `max_batch_total_tokens = 8192`; at
`batch_size = 1`, `sequence_length = 1024` it returns
`max_batch_prefill_tokens = 512` and `max_batch_total_tokens = 1024`. -/
theorem notebook_scenarios :
    (derive notebookModelId 4 2048).maxConcurrentRequests = 4 ∧
    (derive notebookModelId 4 2048).maxTotalTokens = 2048 ∧
    (derive notebookModelId 4 2048).maxBatchPrefillTokens = 4096 ∧
    (derive notebookModelId 4 2048).maxBatchTotalTokens = 8192 ∧
    (derive notebookModelId 1 1024).maxBatchPrefillTokens = 512 ∧
    (derive notebookModelId 1 1024).maxBatchTotalTokens = 1024 := by decide

/-- Claim C5: for every input, the record handed to the provisioning
boundary is exactly the serialization of the derived configuration — the six
keys in order, every value the decimal string of the corresponding derived
integer, and `HF_MODEL_ID` the identifier unchanged. -/
theorem configEnv_serializes_record (mid : String) (b s : Nat) :
    configEnv mid b s = toEnv (derive mid b s) ∧
    (configEnv mid b s).map Prod.fst =
      ["HF_MODEL_ID", "MAX_CONCURRENT_REQUESTS", "MAX_INPUT_LENGTH",
       "MAX_TOTAL_TOKENS", "MAX_BATCH_PREFILL_TOKENS",
       "MAX_BATCH_TOTAL_TOKENS"] ∧
    (configEnv mid b s).head? = some ("HF_MODEL_ID", mid) :=
  ⟨rfl, rfl, rfl⟩

/-- Claim C6: the derivation is pure — identical inputs give identical
output records, and the numeric fields depend only on `batch_size` and
`sequence_length`, not on the model identifier. -/
theorem derive_pure (mid mid' : String) (b s b' s' : Nat)
    (hb : b = b') (hs : s = s') :
    (mid = mid' → configEnv mid b s = configEnv mid' b' s') ∧
    numericFields (derive mid b s) = numericFields (derive mid' b' s') := by
  subst hb; subst hs
  exact ⟨fun h => by rw [h], rfl⟩

/-- Witness for `derive_pure` at the notebook's constants and two distinct
model identifiers. -/
theorem derive_pure_witness :
    (notebookModelId = otherModelId →
      configEnv notebookModelId 4 2048 = configEnv otherModelId 4 2048) ∧
    numericFields (derive notebookModelId 4 2048) =
      numericFields (derive otherModelId 4 2048) :=
  derive_pure notebookModelId otherModelId 4 2048 4 2048 rfl rfl

/-- Counterexample to claim C7 as stated: at `sequence_length = 1024` the
code's `MAX_INPUT_LENGTH` is the literal `1512`, not
`sequence_length − 536 = 488` — the value does not vary with the sequence
length. -/
theorem maxInput_not_derived_cex :
    (derive notebookModelId 4 1024).maxInputLength ≠ 1024 - 536 := by decide

/-- Claim C7 (amended): the code never derives `max_input_length` from
`sequence_length`; it is the fixed literal `1512`, identical for every
sequence length, and coincides with `sequence_length − 536` only at the
notebook's own `sequence_length = 2048` (where `2048 − 536 = 1512`). -/
theorem maxInput_independent_of_seqLen (mid : String) (b s s' : Nat) :
    (derive mid b s).maxInputLength = (derive mid b s').maxInputLength ∧
    (derive mid b 2048).maxInputLength = 2048 - 536 :=
  ⟨rfl, rfl⟩

/-- Claim C8: `MAX_INPUT_LENGTH` is the fixed literal `1512` for every
`batch_size` and `sequence_length`, so for any `sequence_length < 1512` the
produced configuration violates `max_input_length ≤ sequence_length`. -/
theorem maxInput_literal (mid : String) (b s : Nat) :
    (derive mid b s).maxInputLength = 1512 ∧
    (s < 1512 → s < (derive mid b s).maxInputLength) :=
  ⟨rfl, fun h => h⟩

/-- Witness for `maxInput_literal` at `sequence_length = 1000 < 1512`. -/
theorem maxInput_literal_witness :
    (derive notebookModelId 1 1000).maxInputLength = 1512 ∧
    1000 < (derive notebookModelId 1 1000).maxInputLength :=
  ⟨(maxInput_literal notebookModelId 1 1000).1,
   (maxInput_literal notebookModelId 1 1000).2 (by decide)⟩

/-- Claim C9: the prefill computation `int(sequence_length * batch_size / 2)`
goes through binary64 division: for every positive `b`, `s` with
`b * s ≤ 2 ^ 53` it agrees with exact floor division, and at the positive
input `b = 1`, `s = 2 ^ 53 + 3` the floating-point result differs from exact
floor division. -/
theorem prefill_float_semantics :
    (∀ b s : Nat, 0 < b → 0 < s → b * s ≤ 2 ^ 53 →
      (derive notebookModelId b s).maxBatchPrefillTokens = b * s / 2) ∧
    (0 < 1 ∧ 0 < 9007199254740995 ∧
      (derive notebookModelId 1 9007199254740995).maxBatchPrefillTokens ≠
        1 * 9007199254740995 / 2) := by
  constructor
  · intro b s hb hs hsmall
    show pyIntHalf (s * b) = b * s / 2
    rw [pyIntHalf_eq_of_le (by rwa [Nat.mul_comm] at hsmall), Nat.mul_comm s b]
  · exact ⟨by decide, by decide, by decide⟩

/-- Witness for `prefill_float_semantics` at the notebook's constants. -/
theorem prefill_float_semantics_witness :
    (derive notebookModelId 4 2048).maxBatchPrefillTokens = 4 * 2048 / 2 :=
  prefill_float_semantics.1 4 2048 (by decide) (by decide) (by decide)

/-- Claim C10: within the exact-arithmetic regime (`b * s ≤ 2 ^ 53`), twice
the prefill budget never exceeds the batch-total budget, with equality
exactly when `b * s` is even; when `b * s` is odd, twice the prefill budget
is the batch-total budget minus one. -/
theorem prefill_total_relation (b s : Nat) (hb : 0 < b) (hs : 0 < s)
    (hsmall : b * s ≤ 2 ^ 53) :
    2 * (derive notebookModelId b s).maxBatchPrefillTokens ≤
      (derive notebookModelId b s).maxBatchTotalTokens ∧
    (2 * (derive notebookModelId b s).maxBatchPrefillTokens =
      (derive notebookModelId b s).maxBatchTotalTokens ↔ Even (b * s)) ∧
    (¬ Even (b * s) →
      2 * (derive notebookModelId b s).maxBatchPrefillTokens =
        (derive notebookModelId b s).maxBatchTotalTokens - 1) := by
  have hp : (derive notebookModelId b s).maxBatchPrefillTokens = s * b / 2 :=
    pyIntHalf_eq_of_le (by rwa [Nat.mul_comm] at hsmall)
  have ht : (derive notebookModelId b s).maxBatchTotalTokens = s * b := rfl
  rw [hp, ht, Nat.mul_comm b s, Nat.even_iff]
  omega

/-- Witness for `prefill_total_relation` at the odd product `1 * 3`. -/
theorem prefill_total_relation_witness :
    2 * (derive notebookModelId 1 3).maxBatchPrefillTokens ≤
      (derive notebookModelId 1 3).maxBatchTotalTokens ∧
    (2 * (derive notebookModelId 1 3).maxBatchPrefillTokens =
      (derive notebookModelId 1 3).maxBatchTotalTokens ↔ Even (1 * 3)) ∧
    (¬ Even (1 * 3) →
      2 * (derive notebookModelId 1 3).maxBatchPrefillTokens =
        (derive notebookModelId 1 3).maxBatchTotalTokens - 1) :=
  prefill_total_relation 1 3 (by decide) (by decide) (by decide)
